import Mathlib

/-!
Verification of the Keepers Team application bot (src/bot.py).

The development shallowly embeds the bot's conversation/moderation state
machine: the in-memory dictionaries become association lists, a Telegram
transport response to a send becomes an `Option Nat` (message id on
success, `none` on failure), and every outbound transport call is recorded
in a list of `Output` events.  Python strings are Lean `String`s; the
string helpers used by the bot (`str.strip`, `str.lower`, `html.escape`,
`str`/`int` decimal conversion on the ASCII range the bot actually uses)
are written out explicitly below so that they compute and can be reasoned
about.
-/

/-! ## String helpers (models of the Python string operations used) -/

/-- Decimal digit character, models `str(n)` digit production. -/
def digitChar (n : Nat) : Char := Char.ofNat (48 + n)

/-- Fuel-driven most-significant-first decimal rendering of a natural
number; `fuel > n` always suffices. Models Python `str(n)` for `n : Nat`. -/
def natDigitsAux (fuel : Nat) (n : Nat) : List Char :=
  match fuel with
  | 0 => []
  | fuel' + 1 =>
    if n < 10 then [digitChar n]
    else natDigitsAux fuel' (n / 10) ++ [digitChar (n % 10)]

/-- Models Python `str(n)` for a nonnegative integer. -/
def natToStr (n : Nat) : String := String.mk (natDigitsAux (n + 1) n)

/-- Value of a decimal digit character, `none` for non-digits. -/
def digitVal (c : Char) : Option Nat :=
  if 48 ≤ c.toNat ∧ c.toNat ≤ 57 then some (c.toNat - 48) else none

/-- Accumulating decimal parser over characters. -/
def parseNatAux : List Char → Nat → Option Nat
  | [], acc => some acc
  | c :: cs, acc =>
    match digitVal c with
    | some d => parseNatAux cs (acc * 10 + d)
    | none => none

/-- Parse a nonempty all-digit character list; models Python `int(s)` on the
canonical decimal payloads the bot itself generates (Python `int` would
additionally strip whitespace and accept signs, which never occurs in the
bot-generated callback payloads). `int("")` raises, hence `none` on `[]`. -/
def parseNatChars : List Char → Option Nat
  | [] => none
  | c :: cs => parseNatAux (c :: cs) 0

/-- Models `int(s)` on the payload suffixes, see `parseNatChars`. -/
def strToNat (s : String) : Option Nat := parseNatChars s.data

/-- Strip a known leading character sequence, returning the remainder. -/
def dropPrefixChars : List Char → List Char → Option (List Char)
  | [], cs => some cs
  | _ :: _, [] => none
  | p :: ps, c :: cs => if p = c then dropPrefixChars ps cs else none

/-- Models the combination `data.startswith(tag)` followed by
`data.split(":", 1)[1]` used on callback payloads: since every tag ends in
the delimiter `":"` and contains exactly one `":"`, the Python pair of
operations yields exactly the part of `data` after the tag. -/
def stripTag (tag data : String) : Option String :=
  (dropPrefixChars tag.data data.data).map String.mk

/-- ASCII whitespace recognizer used by `pyStrip` (models `str.strip`'s
default whitespace set on the ASCII range). -/
def isSpaceChar (c : Char) : Bool :=
  c = ' ' || c = '\t' || c = '\n' || c = '\r'

/-- Models Python `str.strip()` (ASCII whitespace). -/
def pyStrip (s : String) : String :=
  String.mk (((s.data.dropWhile isSpaceChar).reverse.dropWhile isSpaceChar).reverse)

/-- Models Python `str.lower()` on the ASCII range (enough for `/start`). -/
def lowerChar (c : Char) : Char :=
  if 65 ≤ c.toNat ∧ c.toNat ≤ 90 then Char.ofNat (c.toNat + 32) else c

/-- Models Python `str.lower()`. -/
def pyLower (s : String) : String := String.mk (s.data.map lowerChar)

/-- Models `html.escape(s)` (quote=True default): replaces the five
markup-significant characters by their HTML entities. -/
def escapeChar (c : Char) : String :=
  if c = '&' then "&amp;"
  else if c = '<' then "&lt;"
  else if c = '>' then "&gt;"
  else if c = '"' then "&quot;"
  else if c = Char.ofNat 39 then "&#x27;"
  else String.mk [c]

/-- Models `html.escape`. -/
def htmlEscape (s : String) : String := String.join (s.data.map escapeChar)

/-- Models `"\n".join(lines)`. -/
def joinLines : List String → String
  | [] => ""
  | [l] => l
  | l :: l' :: ls => l ++ "\n" ++ joinLines (l' :: ls)

/-! ## Dictionaries (models of the Python `dict` operations used) -/

/-- Models `d.get(k)` / `d[k]`: association-list lookup. -/
def dictGet {α : Type} : List (Nat × α) → Nat → Option α
  | [], _ => none
  | (k', v) :: rest, k => if k' = k then some v else dictGet rest k

/-- Models `d[k] = v`: replace in place if present (dict keeps insertion
position), else append. -/
def dictInsert {α : Type} : List (Nat × α) → Nat → α → List (Nat × α)
  | [], k, v => [(k, v)]
  | (k', v') :: rest, k, v =>
    if k' = k then (k, v) :: rest else (k', v') :: dictInsert rest k v

/-- Models `d.pop(k, None)`. On the duplicate-free lists that model a
Python dict this is exactly key removal. -/
def dictPop {α : Type} : List (Nat × α) → Nat → List (Nat × α)
  | [], _ => []
  | (k', v') :: rest, k =>
    if k' = k then dictPop rest k else (k', v') :: dictPop rest k

theorem dictGet_insert {α : Type} (d : List (Nat × α)) (k : Nat) (v : α) (j : Nat) :
    dictGet (dictInsert d k v) j = if k = j then some v else dictGet d j := by
  induction d with
  | nil => simp [dictInsert, dictGet]
  | cons p rest ih =>
    obtain ⟨k', v'⟩ := p
    simp only [dictInsert]
    by_cases hk : k' = k
    · simp only [hk, if_pos rfl, dictGet]
      by_cases hj : k = j <;> simp [hj]
    · simp only [if_neg hk, dictGet, ih]
      by_cases hj : k' = j
      · have hkj : ¬k = j := fun h => hk (hj.trans h.symm)
        simp [hj, hkj]
      · simp [hj]

theorem dictGet_pop {α : Type} (d : List (Nat × α)) (k : Nat) (j : Nat) :
    dictGet (dictPop d k) j = if k = j then none else dictGet d j := by
  induction d with
  | nil => simp [dictPop, dictGet]
  | cons p rest ih =>
    obtain ⟨k', v'⟩ := p
    simp only [dictPop]
    by_cases hk : k' = k
    · simp only [if_pos hk, ih, dictGet]
      by_cases hj : k = j
      · simp [hj]
      · have hkj : ¬k' = j := by rw [hk]; exact hj
        simp [hj, hkj]
    · simp only [if_neg hk, dictGet, ih]
      by_cases hj : k' = j
      · have hkj : ¬k = j := fun h => hk (hj.trans h.symm)
        simp [hj, hkj]
      · simp [hj]

theorem dictGet_mem {α : Type} {d : List (Nat × α)} {k : Nat} {v : α}
    (h : dictGet d k = some v) : (k, v) ∈ d := by
  induction d with
  | nil => simp [dictGet] at h
  | cons p rest ih =>
    obtain ⟨k', v'⟩ := p
    by_cases hk : k' = k
    · subst hk
      simp [dictGet] at h
      simp [h]
    · simp [dictGet, hk] at h
      exact List.mem_cons_of_mem _ (ih h)

theorem dictGet_of_mem_nodup {α : Type} {d : List (Nat × α)} {k : Nat} {v : α}
    (hnd : (d.map Prod.fst).Nodup) (hmem : (k, v) ∈ d) : dictGet d k = some v := by
  induction d with
  | nil => simp at hmem
  | cons p rest ih =>
    obtain ⟨k', v'⟩ := p
    simp only [List.map_cons, List.nodup_cons] at hnd
    rcases List.mem_cons.mp hmem with heq | htail
    · have h1 : k = k' := congrArg Prod.fst heq
      have h2 : v = v' := congrArg Prod.snd heq
      subst h1
      subst h2
      simp [dictGet]
    · have hk : ¬k' = k := by
        intro h
        subst h
        exact hnd.1 (List.mem_map.mpr ⟨(k', v), htail, rfl⟩)
      simp only [dictGet, if_neg hk]
      exact ih hnd.2 htail

theorem mem_of_mem_dictPop {α : Type} {d : List (Nat × α)} {k : Nat} {p : Nat × α}
    (h : p ∈ dictPop d k) : p ∈ d := by
  induction d with
  | nil => simp [dictPop] at h
  | cons q rest ih =>
    obtain ⟨k', v'⟩ := q
    simp only [dictPop] at h
    by_cases hk : k' = k
    · rw [if_pos hk] at h
      exact List.mem_cons_of_mem _ (ih h)
    · rw [if_neg hk] at h
      rcases List.mem_cons.mp h with heq | htail
      · exact heq ▸ List.mem_cons_self _ _
      · exact List.mem_cons_of_mem _ (ih htail)

/-! ## Round-trip of the decimal payload encoding -/

theorem digitVal_digitChar {m : Nat} (h : m < 10) : digitVal (digitChar m) = some m := by
  interval_cases m <;> decide

theorem parseNatAux_append (xs ys : List Char) (acc : Nat) :
    parseNatAux (xs ++ ys) acc = (parseNatAux xs acc).bind (parseNatAux ys) := by
  induction xs generalizing acc with
  | nil => simp [parseNatAux]
  | cons c cs ih =>
    simp only [List.cons_append, parseNatAux]
    cases hc : digitVal c
    · rfl
    · simp [ih]

theorem parseNatAux_natDigitsAux :
    ∀ fuel n acc : Nat, n < fuel →
      ∃ B, 1 ≤ B ∧ parseNatAux (natDigitsAux fuel n) acc = some (acc * B + n) := by
  intro fuel
  induction fuel with
  | zero => intro n acc h; omega
  | succ f ih =>
    intro n acc h
    by_cases h10 : n < 10
    · refine ⟨10, by omega, ?_⟩
      simp [natDigitsAux, h10, parseNatAux, digitVal_digitChar h10]
    · have hdiv : n / 10 < f := by
        have h1 : n / 10 < n := Nat.div_lt_self (by omega) (by omega)
        omega
      obtain ⟨B, hB, hparse⟩ := ih (n / 10) acc hdiv
      refine ⟨B * 10, by omega, ?_⟩
      simp only [natDigitsAux, if_neg h10, parseNatAux_append, hparse, Option.bind]
      have hd : digitVal (digitChar (n % 10)) = some (n % 10) :=
        digitVal_digitChar (Nat.mod_lt n (by omega))
      simp only [parseNatAux, hd]
      have key : (acc * B + n / 10) * 10 + n % 10 = acc * (B * 10) + n := by
        rw [Nat.add_mul, ← Nat.mul_assoc]
        omega
      rw [key]

theorem natDigitsAux_ne_nil (f n : Nat) : natDigitsAux (f + 1) n ≠ [] := by
  simp only [natDigitsAux]
  by_cases h10 : n < 10 <;> simp [h10]

theorem strToNat_natToStr (n : Nat) : strToNat (natToStr n) = some n := by
  obtain ⟨B, hB, hp⟩ := parseNatAux_natDigitsAux (n + 1) n 0 (by omega)
  have hres : parseNatChars (natDigitsAux (n + 1) n) = some n := by
    cases hl : natDigitsAux (n + 1) n with
    | nil => exact absurd hl (natDigitsAux_ne_nil n n)
    | cons c cs =>
      rw [parseNatChars, ← hl, hp]
      simp
  simpa [strToNat, natToStr] using hres

/-! ## Facts about the payload tag stripping -/

theorem dropPrefixChars_append (ps cs : List Char) :
    dropPrefixChars ps (ps ++ cs) = some cs := by
  induction ps with
  | nil => rfl
  | cons p ps ih => simp [dropPrefixChars, ih]

theorem stripTag_self (tag rest : String) : stripTag tag (tag ++ rest) = some rest := by
  unfold stripTag
  rw [String.data_append, dropPrefixChars_append]
  rfl

theorem stripTag_ua_ud (x : String) :
    stripTag "user_accept:" ("user_decline:" ++ x) = none := by
  unfold stripTag
  rw [String.data_append]
  rfl

theorem stripTag_ua_ma (x : String) :
    stripTag "user_accept:" ("mod_accept:" ++ x) = none := by
  unfold stripTag
  rw [String.data_append]
  rfl

theorem stripTag_ud_ma (x : String) :
    stripTag "user_decline:" ("mod_accept:" ++ x) = none := by
  unfold stripTag
  rw [String.data_append]
  rfl

theorem stripTag_ua_md (x : String) :
    stripTag "user_accept:" ("mod_decline:" ++ x) = none := by
  unfold stripTag
  rw [String.data_append]
  rfl

theorem stripTag_ud_md (x : String) :
    stripTag "user_decline:" ("mod_decline:" ++ x) = none := by
  unfold stripTag
  rw [String.data_append]
  rfl

theorem stripTag_ma_md (x : String) :
    stripTag "mod_accept:" ("mod_decline:" ++ x) = none := by
  unfold stripTag
  rw [String.data_append]
  rfl

/-! ## Data model (src/bot.py, `UserState` and `PendingApplication`) -/

/-- Translation of the `UserState` dataclass (bot.py lines 73-82), with the
same field defaults as the Python dataclass. -/
structure UserState where
  step : Nat := 0
  answers : List String := []
  submitted : Bool := false
  awaiting_user_confirmation : Bool := false
  summary_message_id : Option Nat := none
deriving DecidableEq, Repr

/-- Translation of `UserState()`: a freshly constructed state with the
dataclass defaults. -/
def freshUserState : UserState := {}

/-- Translation of the `PendingApplication` dataclass (bot.py lines 85-97). -/
structure PendingApplication where
  user_id : Nat
  username : String
  answers : List String
  moderator_message_id : Option Nat := none
  awaiting_reason : Bool := false
  declined_by : Option Nat := none
deriving DecidableEq, Repr

/-- The two in-memory stores of `KeepersBot.__init__` (bot.py lines 103-106):
`user_states` and `pending_apps`, keyed by Telegram user id. -/
structure BotState where
  user_states : List (Nat × UserState)
  pending_apps : List (Nat × PendingApplication)
deriving DecidableEq, Repr

/-- Mandatory configuration read from the environment at startup (bot.py
lines 34-43): the moderator chat id and the invite link granted on
acceptance (the bot token only feeds the HTTP layer, which is out of the
embedded core). -/
structure Config where
  modChatId : Nat
  inviteLink : String

/-- An inline-keyboard button (bot.py `build_inline_keyboard` payloads). -/
structure Button where
  text : String
  callback_data : String
deriving DecidableEq, Repr

/-- Reply markup: the bot only ever builds inline keyboards. -/
inductive Markup where
  | inlineKeyboard (buttons : List (List Button)) : Markup
deriving DecidableEq, Repr

/-- Outbound transport calls recorded while handling one or more events:
`sendMessage`, `editMessageReplyMarkup` and `answerCallbackQuery`. -/
inductive Output where
  | sendMsg (chat : Nat) (text : String) (markup : Option Markup) : Output
  | editMarkup (chat : Nat) (message_id : Nat) (markup : Markup) : Output
  | ansCallback (query_id : Nat) : Output
deriving DecidableEq, Repr

/-- Inbound events, after the `run` loop has classified the update dict:
a (possibly edited) text message or an inline-button callback query. -/
inductive Update where
  | msg (chat_id : Nat) (from_id : Nat) (text : String) : Update
  | callback (query_id : Nat) (data : String) (from_id : Nat) (username : String) : Update
deriving DecidableEq, Repr

/-! ## Fixed texts of the bot -/

/-- Greeting sent by `start_questionnaire` (bot.py lines 175-188). -/
def greeting : String :=
  "Приветствуем тебя! С тобой бот Keepers Team.\n\n" ++
  "Мы открыли набор в нашу команду, работающую в сфере NFT-подарков через Telegram.\n" ++
  "Уже сейчас ты можешь начать зарабатывать на одном из самых перспективных направлений.\n\n" ++
  "🔺 Мы предлагаем одни из лучших условий на рынке:\n\n" ++
  "— 60% от оценки скупа — твоя чистая прибыль.\n" ++
  "Для ТОП-воркеров предусмотрен индивидуальный процент и бонусные условия.\n\n" ++
  "— Пошаговые мануалы, основанные на реальном опыте.\n" ++
  "Также доступны обучающие методички.\n\n" ++
  "— Постоянная поддержка от ТОПОВ.\n\n" ++
  "📈 Благодаря нашей системе распределения процентов ты сможешь выстроить пассивный доход без ограничений — всё зависит только от твоего желания и активности.\n\n" ++
  "👥 Уже создавал или планируешь собрать собственную команду?\n" ++
  "Для филиалов и опытных воркеров — особые условия сотрудничества и поддержка на старте."

/-- The fixed ordered question list of `ask_next_question` (bot.py 197-206). -/
def questions : List String :=
  [ "Сколько вам лет?",
    "Уже работал в этой сфере?\n" ++
      "Если да — где и с каким капиталом?\n" ++
      "Если нет — расскажи, в каких сферах у тебя был опыт",
    "Готовы ли вы вложить 10–35 $ на оплату расходников?",
    "Ссылка на форум или источник, откуда вы о нас узнали" ]

/-- Default rejection reason used when the moderator sends empty text
(bot.py line 255). -/
def defaultReason : String := "Без объяснения причины"

/-- First, fixed line of the rejection message (bot.py line 258). -/
def rejectionHeader : String := "🚫 <b>Ваша заявка была отклонена. Причина:</b>\n"

/-- Fixed tail of the rejection message (bot.py lines 260-261). -/
def rejectionFooter : String :=
  "\n\nЕсли хотите подать заявку повторно, удалите переписку с ботом и начните сначала.\n" ++
  "(Если бот не отвечает — убедитесь, что он не в чёрном списке.)"

/-- Rejection message delivered to the applicant (bot.py lines 257-262). -/
def rejectionText (reason : String) : String :=
  rejectionHeader ++ (htmlEscape reason ++ rejectionFooter)

/-- Display-name fallback `username or 'user' + str(uid)` (bot.py 276, 385, 466). -/
def displayName (username : String) (uid : Nat) : String :=
  if username = "" then "user" ++ natToStr uid else username

/-- Moderator-chat notice after a rejection is finalized (bot.py 274-277). -/
def declinedNotice (app : PendingApplication) : String :=
  "Заявка пользователя @" ++ displayName app.username app.user_id ++ " отклонена."

/-- Prompt shown to a user with no state who did not send /start (bot.py 292-295). -/
def promptStartText : String := "Для подачи заявки отправьте команду /start."

/-- Fixed reply for users whose application is pending (bot.py 301-306). -/
def onHoldText : String :=
  "Ваша заявка отправлена на рассмотрение. " ++
  "Ментор ответит вам, как только примет решение.\n" ++
  "Повторная подача заявки разрешена только после очистки истории диалога с ботом."

/-- Fixed reply while the summary confirmation buttons are active (bot.py 310-315). -/
def useButtonsText : String :=
  "Пожалуйста, используйте кнопки ниже, чтобы подтвердить или отменить заявку."

/-- Prompt in the fall-through branch of the applicant dispatcher (bot.py 337-340). -/
def restartPromptText : String := "Отправьте /start для начала анкеты."

/-- Suffix appended under the rendered summary (bot.py line 233). -/
def summarySuffix : String := "\n\nПожалуйста, убедитесь, что заявка заполнена корректно."

/-- Confirmation sent to the applicant after submission (bot.py 406-410). -/
def submittedText : String :=
  "Ваша заявка отправлена на рассмотрение. " ++
  "Ментор ответит вам, как только примет решение."

/-- Message after the applicant cancels their summary (bot.py 433-436). -/
def cancelledText : String :=
  "Анкета отменена. Если хотите подать заявку заново, отправьте команду /start."

/-- First, fixed line of the acceptance message (bot.py 458-459). -/
def acceptanceHeader : String := "🎉 <b>Удачной игры!</b>\n#blood_play 🩸🎮\n\n"

/-- Acceptance message with the access-grant link (bot.py 457-461). -/
def acceptanceText (cfg : Config) : String :=
  acceptanceHeader ++ htmlEscape cfg.inviteLink

/-- Moderator-chat notice after an acceptance (bot.py 463-467). -/
def acceptedNotice (applicant_id : Nat) (app : PendingApplication) : String :=
  "Заявка пользователя @" ++ displayName app.username applicant_id ++ " принята."

/-- Prompt asking the moderator for a rejection reason (bot.py 481-485). -/
def reasonPrompt : String := "Пожалуйста, введите причину отказа:"

/-- The `enumerate(answers, start=1)` loop building `f"{idx}. {escaped}"`
lines, shared by `present_summary` (bot.py 217-221) and the moderator post
(bot.py 380-382). -/
def numberLines : Nat → List String → List String
  | _, [] => []
  | i, a :: rest => (natToStr i ++ ". " ++ htmlEscape a) :: numberLines (i + 1) rest

/-- Rendering of the collected answers:
`"\n".join(lines) if lines else "(пусто)"` (bot.py 222 and 383). -/
def renderAnswers (answers : List String) : String :=
  if (numberLines 1 answers).isEmpty then "(пусто)" else joinLines (numberLines 1 answers)

/-- Moderator-chat post of a fresh application (bot.py 384-387). -/
def applicationPostText (username : String) (applicant_id : Nat) (answers : List String) : String :=
  "📌 Новая заявка от @" ++ displayName username applicant_id ++ ":\n\n" ++
    renderAnswers answers

/-! ## Keyboards -/

/-- Confirm/cancel chooser attached to the summary (bot.py 224-230). -/
def summaryMarkup (user_id : Nat) : Markup :=
  Markup.inlineKeyboard
    [[⟨"✅ Принять", "user_accept:" ++ natToStr user_id⟩,
      ⟨"❌ Отклонить", "user_decline:" ++ natToStr user_id⟩]]

/-- Accept/reject chooser attached to the moderator post (bot.py 388-394). -/
def modMarkup (applicant_id : Nat) : Markup :=
  Markup.inlineKeyboard
    [[⟨"✅ Принять", "mod_accept:" ++ natToStr applicant_id⟩,
      ⟨"❌ Отклонить", "mod_decline:" ++ natToStr applicant_id⟩]]

/-- The empty keyboard used to disable buttons
(`reply_markup={"inline_keyboard": []}`). -/
def emptyMarkup : Markup := Markup.inlineKeyboard []

/-- The `if some_message_id: edit_message_reply_markup(...)` pattern used at
bot.py 267-272, 372-377, 425-430 and 451-456.  (Python tests the id for
truthiness; a Telegram message id is always positive, so presence of the
id is the faithful reading.) -/
def editList (chat : Nat) (mid : Option Nat) : List Output :=
  match mid with
  | some m => [Output.editMarkup chat m emptyMarkup]
  | none => []

/-! ## Questionnaire engine -/

/-- Translation of `KeepersBot.start_questionnaire` (bot.py 166-192): reset
or create the state (every field of the `setdefault` result is assigned, so
the net state is fixed), send the greeting, then ask the first question. -/
def start_questionnaire (user_id : Nat) (s : BotState) : BotState × List Output :=
  let st : UserState :=
    { step := 1, answers := [], submitted := false,
      awaiting_user_confirmation := false, summary_message_id := none }
  let s1 : BotState := { s with user_states := dictInsert s.user_states user_id st }
  (s1, Output.sendMsg user_id greeting none ::
    (match dictGet s1.user_states user_id with
     | none => []
     | some st' =>
       if 1 ≤ st'.step ∧ st'.step ≤ questions.length then
         [Output.sendMsg user_id (questions.getD (st'.step - 1) "") none]
       else []))

/-- Translation of `KeepersBot.ask_next_question` (bot.py 194-211); reads the
state back from the store as the Python does (the `none` case would be a
Python `KeyError`, unreachable from the call sites). -/
def ask_next_question (user_id : Nat) (s : BotState) : List Output :=
  match dictGet s.user_states user_id with
  | none => []
  | some st =>
    if 1 ≤ st.step ∧ st.step ≤ questions.length then
      [Output.sendMsg user_id (questions.getD (st.step - 1) "") none]
    else []

/-- Translation of `KeepersBot.present_summary` (bot.py 213-238).  `resp` is
the transport's answer to the summary `sendMessage`: `some mid` when the
response is ok (carrying the new message id), `none` on failure.  Only on
ok does the state gain `awaiting_user_confirmation`/`summary_message_id`. -/
def present_summary (user_id : Nat) (resp : Option Nat) (s : BotState) : BotState × List Output :=
  match dictGet s.user_states user_id with
  | none => (s, [])
  | some st =>
    let out := [Output.sendMsg user_id (renderAnswers st.answers ++ summarySuffix)
      (some (summaryMarkup user_id))]
    match resp with
    | some mid =>
      let st1 : UserState :=
        { st with awaiting_user_confirmation := true, summary_message_id := some mid }
      ({ s with user_states := dictInsert s.user_states user_id st1 }, out)
    | none => (s, out)

/-! ## Moderation workflow and dispatcher -/

/-- The scan of `self.pending_apps.values()` for the first application with
`awaiting_reason` and `declined_by == user_id` (bot.py 253-254); dict
values iterate in insertion order, which the association list preserves. -/
def findAwaiting : List (Nat × PendingApplication) → Nat → Option PendingApplication
  | [], _ => none
  | (_, app) :: rest, uid =>
    if app.awaiting_reason = true ∧ app.declined_by = some uid then some app
    else findAwaiting rest uid

/-- Translation of the moderator-chat branch of `handle_user_message`
(bot.py 251-281): bind the text as the rejection reason of the matching
pending application, or ignore the message. -/
def moderatorReasonAction (cfg : Config) (user_id : Nat) (text : String) (s : BotState) :
    BotState × List Output :=
  match findAwaiting s.pending_apps user_id with
  | none => (s, [])
  | some app =>
    let reason := if text ≠ "" then text else defaultReason
    ({ s with pending_apps := dictPop s.pending_apps app.user_id },
     Output.sendMsg app.user_id (rejectionText reason) none ::
       (editList cfg.modChatId app.moderator_message_id ++
        [Output.sendMsg cfg.modChatId (declinedNotice app) none]))

/-- Translation of `KeepersBot.handle_user_message` (bot.py 240-340).
`resp` is the transport response used if this message completes the
questionnaire and a summary is sent. -/
def handle_user_message (cfg : Config) (chat_id user_id : Nat) (rawText : String)
    (resp : Option Nat) (s : BotState) : BotState × List Output :=
  let text := pyStrip rawText
  if chat_id = cfg.modChatId then moderatorReasonAction cfg user_id text s
  else
    match dictGet s.user_states user_id with
    | none =>
      if pyLower text = "/start" then start_questionnaire user_id s
      else (s, [Output.sendMsg chat_id promptStartText none])
    | some st =>
      if st.submitted then (s, [Output.sendMsg chat_id onHoldText none])
      else if st.awaiting_user_confirmation then
        (s, [Output.sendMsg chat_id useButtonsText none])
      else if 1 ≤ st.step ∧ st.step ≤ 4 then
        let st1 : UserState := { st with answers := st.answers ++ [text], step := st.step + 1 }
        let s1 : BotState := { s with user_states := dictInsert s.user_states user_id st1 }
        if st1.step ≤ 4 then (s1, ask_next_question user_id s1)
        else present_summary user_id resp s1
      else (s, [Output.sendMsg chat_id restartPromptText none])

/-- Translation of the `user_accept:` branch of `handle_callback_query`
(bot.py 356-411).  `respMod` is the transport response to the moderator
post (`mod_msg_id`). -/
def userAcceptAction (cfg : Config) (applicant_id user_id : Nat) (username : String)
    (respMod : Option Nat) (s : BotState) : BotState × List Output :=
  if user_id ≠ applicant_id then (s, [])
  else
    match dictGet s.user_states applicant_id with
    | none => (s, [])
    | some st =>
      if st.submitted then (s, [])
      else
        let st1 : UserState := { st with submitted := true, awaiting_user_confirmation := false }
        let s1 : BotState := { s with user_states := dictInsert s.user_states applicant_id st1 }
        let app : PendingApplication :=
          { user_id := applicant_id, username := username, answers := st.answers,
            moderator_message_id := respMod, awaiting_reason := false, declined_by := none }
        ({ s1 with pending_apps := dictInsert s1.pending_apps applicant_id app },
         editList applicant_id st.summary_message_id ++
           [Output.sendMsg cfg.modChatId (applicationPostText username applicant_id st.answers)
              (some (modMarkup applicant_id)),
            Output.sendMsg applicant_id submittedText none])

/-- Translation of the `user_decline:` branch of `handle_callback_query`
(bot.py 413-437): full reset to `UserState()`. -/
def userDeclineAction (applicant_id user_id : Nat) (s : BotState) : BotState × List Output :=
  if user_id ≠ applicant_id then (s, [])
  else
    match dictGet s.user_states applicant_id with
    | none => (s, [])
    | some st =>
      if st.submitted then (s, [])
      else
        ({ s with user_states := dictInsert s.user_states applicant_id freshUserState },
         editList applicant_id st.summary_message_id ++
           [Output.sendMsg applicant_id cancelledText none])

/-- Translation of the `mod_accept:` branch of `handle_callback_query`
(bot.py 439-468): remove the pending application first, then disable its
buttons and notify. -/
def modAcceptAction (cfg : Config) (applicant_id : Nat) (s : BotState) : BotState × List Output :=
  match dictGet s.pending_apps applicant_id with
  | none => (s, [])
  | some app =>
    ({ s with pending_apps := dictPop s.pending_apps applicant_id },
     editList cfg.modChatId app.moderator_message_id ++
       [Output.sendMsg applicant_id (acceptanceText cfg) none,
        Output.sendMsg cfg.modChatId (acceptedNotice applicant_id app) none])

/-- Translation of the `mod_decline:` branch of `handle_callback_query`
(bot.py 470-486): mark the application as awaiting a reason from this
moderator and prompt the moderator chat. -/
def modDeclineAction (cfg : Config) (applicant_id user_id : Nat) (s : BotState) :
    BotState × List Output :=
  match dictGet s.pending_apps applicant_id with
  | none => (s, [])
  | some app =>
    let app1 : PendingApplication :=
      { app with awaiting_reason := true, declined_by := some user_id }
    ({ s with pending_apps := dictInsert s.pending_apps applicant_id app1 },
     [Output.sendMsg cfg.modChatId reasonPrompt none])

/-- Translation of `KeepersBot.handle_callback_query` (bot.py 342-486):
acknowledge the callback, then dispatch on the payload tag; malformed
numeric payloads are dropped. -/
def handle_callback_query (cfg : Config) (query_id : Nat) (data : String) (user_id : Nat)
    (username : String) (respMod : Option Nat) (s : BotState) : BotState × List Output :=
  let res : BotState × List Output :=
    match stripTag "user_accept:" data with
    | some rest =>
      (match strToNat rest with
       | none => (s, [])
       | some applicant_id => userAcceptAction cfg applicant_id user_id username respMod s)
    | none =>
      match stripTag "user_decline:" data with
      | some rest =>
        (match strToNat rest with
         | none => (s, [])
         | some applicant_id => userDeclineAction applicant_id user_id s)
      | none =>
        match stripTag "mod_accept:" data with
        | some rest =>
          (match strToNat rest with
           | none => (s, [])
           | some applicant_id => modAcceptAction cfg applicant_id s)
        | none =>
          match stripTag "mod_decline:" data with
          | some rest =>
            (match strToNat rest with
             | none => (s, [])
             | some applicant_id => modDeclineAction cfg applicant_id user_id s)
          | none => (s, [])
  (res.1, Output.ansCallback query_id :: res.2)

/-- One turn of the `run` loop's dispatch (bot.py 488-501): a message update
goes to `handle_user_message`, a callback update to `handle_callback_query`.
`resp` stands for the transport responses this event may consume. -/
def processUpdate (cfg : Config) (u : Update) (resp : Option Nat) (s : BotState) :
    BotState × List Output :=
  match u with
  | Update.msg chat_id from_id text => handle_user_message cfg chat_id from_id text resp s
  | Update.callback query_id data from_id username =>
    handle_callback_query cfg query_id data from_id username resp s

/-- Processing a batch of updates in arrival order, accumulating outputs. -/
def processUpdates (cfg : Config) : BotState → List (Update × Option Nat) →
    BotState × List Output
  | s, [] => (s, [])
  | s, (u, r) :: rest =>
    let first := processUpdate cfg u r s
    let next := processUpdates cfg first.1 rest
    (next.1, first.2 ++ next.2)

/-! ## Dispatch lemmas for the canonical callback payloads -/

theorem hcq_user_accept (cfg : Config) (q a u : Nat) (un : String) (r : Option Nat)
    (s : BotState) :
    handle_callback_query cfg q ("user_accept:" ++ natToStr a) u un r s =
      ((userAcceptAction cfg a u un r s).1,
       Output.ansCallback q :: (userAcceptAction cfg a u un r s).2) := by
  simp [handle_callback_query, stripTag_self, strToNat_natToStr]

theorem hcq_user_decline (cfg : Config) (q a u : Nat) (un : String) (r : Option Nat)
    (s : BotState) :
    handle_callback_query cfg q ("user_decline:" ++ natToStr a) u un r s =
      ((userDeclineAction a u s).1,
       Output.ansCallback q :: (userDeclineAction a u s).2) := by
  simp [handle_callback_query, stripTag_ua_ud, stripTag_self, strToNat_natToStr]

theorem hcq_mod_accept (cfg : Config) (q a u : Nat) (un : String) (r : Option Nat)
    (s : BotState) :
    handle_callback_query cfg q ("mod_accept:" ++ natToStr a) u un r s =
      ((modAcceptAction cfg a s).1,
       Output.ansCallback q :: (modAcceptAction cfg a s).2) := by
  simp [handle_callback_query, stripTag_ua_ma, stripTag_ud_ma, stripTag_self, strToNat_natToStr]

theorem hcq_mod_decline (cfg : Config) (q a u : Nat) (un : String) (r : Option Nat)
    (s : BotState) :
    handle_callback_query cfg q ("mod_decline:" ++ natToStr a) u un r s =
      ((modDeclineAction cfg a u s).1,
       Output.ansCallback q :: (modDeclineAction cfg a u s).2) := by
  simp [handle_callback_query, stripTag_ua_md, stripTag_ud_md, stripTag_ma_md, stripTag_self,
    strToNat_natToStr]

/-! ## Per-user-state invariants preserved by event processing -/

/-- A predicate holding of every `UserState` stored in the conversation
store. -/
def StatesSat (P : UserState → Prop) (s : BotState) : Prop :=
  ∀ uid st, dictGet s.user_states uid = some st → P st

/-- The state value written by `start_questionnaire` (bot.py 168-173). -/
def startedUserState : UserState :=
  { step := 1, answers := [], submitted := false,
    awaiting_user_confirmation := false, summary_message_id := none }

theorem statesSat_insert {P : UserState → Prop} {s : BotState} (h : StatesSat P s)
    {v : UserState} (hv : P v) (k : Nat) :
    StatesSat P { s with user_states := dictInsert s.user_states k v } := by
  intro uid st hg
  dsimp only at hg
  rw [dictGet_insert] at hg
  by_cases hk : k = uid
  · rw [if_pos hk] at hg
    cases hg
    exact hv
  · rw [if_neg hk] at hg
    exact h uid st hg

theorem statesSat_pending {P : UserState → Prop} {s : BotState} (h : StatesSat P s)
    (x : List (Nat × PendingApplication)) :
    StatesSat P { s with pending_apps := x } := fun uid st hg => h uid st hg

theorem moderatorReasonAction_sat {P : UserState → Prop} (cfg : Config) (uid : Nat)
    (t : String) (s : BotState) (h : StatesSat P s) :
    StatesSat P (moderatorReasonAction cfg uid t s).1 := by
  unfold moderatorReasonAction
  cases hf : findAwaiting s.pending_apps uid with
  | none => simpa using h
  | some app =>
    simp only [hf]
    exact statesSat_pending h _

theorem start_questionnaire_sat {P : UserState → Prop} (uid : Nat) (s : BotState)
    (h : StatesSat P s) (hstart : P startedUserState) :
    StatesSat P (start_questionnaire uid s).1 := by
  unfold start_questionnaire
  exact statesSat_insert h hstart uid

theorem present_summary_sat {P : UserState → Prop} (uid : Nat) (r : Option Nat) (s : BotState)
    (h : StatesSat P s)
    (hset : ∀ st mid, dictGet s.user_states uid = some st →
      P { st with awaiting_user_confirmation := true, summary_message_id := some mid }) :
    StatesSat P (present_summary uid r s).1 := by
  unfold present_summary
  cases hg : dictGet s.user_states uid with
  | none => simpa using h
  | some st =>
    simp only [hg]
    cases r with
    | none => simpa using h
    | some mid =>
      simp only
      exact statesSat_insert h (hset st mid hg) uid

theorem handle_user_message_sat {P : UserState → Prop} (cfg : Config)
    (chat uid : Nat) (raw : String) (r : Option Nat) (s : BotState) (h : StatesSat P s)
    (hstart : P startedUserState)
    (hans : ∀ st t, P st → 1 ≤ st.step → st.step ≤ 4 →
      P { st with answers := st.answers ++ [t], step := st.step + 1 })
    (hpres : ∀ st mid, P st → st.submitted = false →
      P { st with awaiting_user_confirmation := true, summary_message_id := some mid }) :
    StatesSat P (handle_user_message cfg chat uid raw r s).1 := by
  simp only [handle_user_message]
  by_cases hmod : chat = cfg.modChatId
  · rw [if_pos hmod]
    exact moderatorReasonAction_sat cfg uid (pyStrip raw) s h
  · rw [if_neg hmod]
    cases hg : dictGet s.user_states uid with
    | none =>
      by_cases hsq : pyLower (pyStrip raw) = "/start"
      · dsimp only
        rw [if_pos hsq]
        exact start_questionnaire_sat uid s h hstart
      · dsimp only
        rw [if_neg hsq]
        exact h
    | some st =>
      by_cases hsub : st.submitted = true
      · dsimp only
        rw [if_pos hsub]
        exact h
      · have hsub' : st.submitted = false := by simpa using hsub
        dsimp only
        rw [if_neg hsub]
        by_cases hconf : st.awaiting_user_confirmation = true
        · rw [if_pos hconf]
          exact h
        · rw [if_neg hconf]
          by_cases hrange : 1 ≤ st.step ∧ st.step ≤ 4
          · rw [if_pos hrange]
            have hPst : P st := h uid st hg
            have hPst1 := hans st (pyStrip raw) hPst hrange.1 hrange.2
            by_cases hb : st.step + 1 ≤ 4
            · rw [if_pos hb]
              exact statesSat_insert h hPst1 uid
            · rw [if_neg hb]
              refine present_summary_sat uid r _ (statesSat_insert h hPst1 uid) ?_
              intro st' mid hg'
              dsimp only at hg'
              rw [dictGet_insert, if_pos rfl] at hg'
              cases hg'
              exact hpres _ mid hPst1 hsub'
          · rw [if_neg hrange]
            exact h

theorem userAcceptAction_sat {P : UserState → Prop} (cfg : Config)
    (a u : Nat) (un : String) (r : Option Nat) (s : BotState) (h : StatesSat P s)
    (hsubmit : ∀ st, P st →
      P { st with submitted := true, awaiting_user_confirmation := false }) :
    StatesSat P (userAcceptAction cfg a u un r s).1 := by
  unfold userAcceptAction
  by_cases hu : u ≠ a
  · rw [if_pos hu]
    exact h
  · rw [if_neg hu]
    cases hg : dictGet s.user_states a with
    | none => exact h
    | some st =>
      by_cases hsub : st.submitted = true
      · dsimp only
        rw [if_pos hsub]
        exact h
      · dsimp only
        rw [if_neg hsub]
        intro uid st' hg'
        dsimp only at hg'
        rw [dictGet_insert] at hg'
        by_cases hk : a = uid
        · rw [if_pos hk] at hg'
          cases hg'
          exact hsubmit st (h a st hg)
        · rw [if_neg hk] at hg'
          exact h uid st' hg'

theorem userDeclineAction_sat {P : UserState → Prop}
    (a u : Nat) (s : BotState) (h : StatesSat P s) (hfresh : P freshUserState) :
    StatesSat P (userDeclineAction a u s).1 := by
  unfold userDeclineAction
  by_cases hu : u ≠ a
  · rw [if_pos hu]
    exact h
  · rw [if_neg hu]
    cases hg : dictGet s.user_states a with
    | none => exact h
    | some st =>
      by_cases hsub : st.submitted = true
      · dsimp only
        rw [if_pos hsub]
        exact h
      · dsimp only
        rw [if_neg hsub]
        exact statesSat_insert h hfresh a

theorem modAcceptAction_sat {P : UserState → Prop} (cfg : Config)
    (a : Nat) (s : BotState) (h : StatesSat P s) :
    StatesSat P (modAcceptAction cfg a s).1 := by
  unfold modAcceptAction
  cases hg : dictGet s.pending_apps a with
  | none => exact h
  | some app => exact statesSat_pending h _

theorem modDeclineAction_sat {P : UserState → Prop} (cfg : Config)
    (a u : Nat) (s : BotState) (h : StatesSat P s) :
    StatesSat P (modDeclineAction cfg a u s).1 := by
  unfold modDeclineAction
  cases hg : dictGet s.pending_apps a with
  | none => exact h
  | some app => exact statesSat_pending h _

theorem handle_callback_query_sat {P : UserState → Prop} (cfg : Config)
    (q : Nat) (data : String) (u : Nat) (un : String) (r : Option Nat) (s : BotState)
    (h : StatesSat P s)
    (hfresh : P freshUserState)
    (hsubmit : ∀ st, P st →
      P { st with submitted := true, awaiting_user_confirmation := false }) :
    StatesSat P (handle_callback_query cfg q data u un r s).1 := by
  unfold handle_callback_query
  cases h1 : stripTag "user_accept:" data with
  | some rest =>
    dsimp only
    cases h2 : strToNat rest with
    | none => exact h
    | some a => exact userAcceptAction_sat cfg a u un r s h hsubmit
  | none =>
    dsimp only
    cases h2 : stripTag "user_decline:" data with
    | some rest =>
      dsimp only
      cases h3 : strToNat rest with
      | none => exact h
      | some a => exact userDeclineAction_sat a u s h hfresh
    | none =>
      dsimp only
      cases h3 : stripTag "mod_accept:" data with
      | some rest =>
        dsimp only
        cases h4 : strToNat rest with
        | none => exact h
        | some a => exact modAcceptAction_sat cfg a s h
      | none =>
        dsimp only
        cases h4 : stripTag "mod_decline:" data with
        | some rest =>
          dsimp only
          cases h5 : strToNat rest with
          | none => exact h
          | some a => exact modDeclineAction_sat cfg a u s h
        | none => exact h

theorem processUpdate_statesSat {P : UserState → Prop} (cfg : Config) (u : Update)
    (r : Option Nat) (s : BotState) (h : StatesSat P s)
    (hfresh : P freshUserState)
    (hstart : P startedUserState)
    (hsubmit : ∀ st, P st →
      P { st with submitted := true, awaiting_user_confirmation := false })
    (hans : ∀ st t, P st → 1 ≤ st.step → st.step ≤ 4 →
      P { st with answers := st.answers ++ [t], step := st.step + 1 })
    (hpres : ∀ st mid, P st → st.submitted = false →
      P { st with awaiting_user_confirmation := true, summary_message_id := some mid }) :
    StatesSat P (processUpdate cfg u r s).1 := by
  cases u with
  | msg chat_id from_id text =>
    exact handle_user_message_sat cfg chat_id from_id text r s h hstart hans hpres
  | callback query_id data from_id username =>
    exact handle_callback_query_sat cfg query_id data from_id username r s h hfresh hsubmit

/-! ## Facts about the moderator-reason scan -/

theorem findAwaiting_eq_none {d : List (Nat × PendingApplication)} {uid : Nat}
    (h : ∀ p ∈ d, ¬(p.2.awaiting_reason = true ∧ p.2.declined_by = some uid)) :
    findAwaiting d uid = none := by
  induction d with
  | nil => rfl
  | cons p rest ih =>
    obtain ⟨k, app⟩ := p
    have hh := h (k, app) (List.mem_cons_self _ _)
    simp only [findAwaiting, if_neg hh]
    exact ih fun q hq => h q (List.mem_cons_of_mem _ hq)

theorem findAwaiting_insert {d : List (Nat × PendingApplication)} {a uid : Nat}
    {app1 : PendingApplication}
    (h : ∀ p ∈ d, ¬(p.2.awaiting_reason = true ∧ p.2.declined_by = some uid))
    (hm : app1.awaiting_reason = true ∧ app1.declined_by = some uid) :
    findAwaiting (dictInsert d a app1) uid = some app1 := by
  induction d with
  | nil => simp [dictInsert, findAwaiting, hm]
  | cons p rest ih =>
    obtain ⟨k, app⟩ := p
    simp only [dictInsert]
    by_cases hk : k = a
    · rw [if_pos hk]
      simp [findAwaiting, hm]
    · rw [if_neg hk]
      have hh := h (k, app) (List.mem_cons_self _ _)
      simp only [findAwaiting, if_neg hh]
      exact ih fun q hq => h q (List.mem_cons_of_mem _ hq)

theorem findAwaiting_mem {d : List (Nat × PendingApplication)} {uid : Nat}
    {app : PendingApplication} (h : findAwaiting d uid = some app) :
    ∃ k, (k, app) ∈ d := by
  induction d with
  | nil => simp [findAwaiting] at h
  | cons p rest ih =>
    obtain ⟨k, app'⟩ := p
    by_cases hc : app'.awaiting_reason = true ∧ app'.declined_by = some uid
    · simp only [findAwaiting, if_pos hc] at h
      cases h
      exact ⟨k, List.mem_cons_self _ _⟩
    · simp only [findAwaiting, if_neg hc] at h
      obtain ⟨k', hk'⟩ := ih h
      exact ⟨k', List.mem_cons_of_mem _ hk'⟩

theorem findAwaiting_matches {d : List (Nat × PendingApplication)} {uid : Nat}
    {app : PendingApplication} (h : findAwaiting d uid = some app) :
    app.awaiting_reason = true ∧ app.declined_by = some uid := by
  induction d with
  | nil => simp [findAwaiting] at h
  | cons p rest ih =>
    obtain ⟨k, app'⟩ := p
    by_cases hc : app'.awaiting_reason = true ∧ app'.declined_by = some uid
    · simp only [findAwaiting, if_pos hc] at h
      cases h
      exact hc
    · simp only [findAwaiting, if_neg hc] at h
      exact ih h

theorem findAwaiting_first {d : List (Nat × PendingApplication)} {uid a : Nat}
    {app : PendingApplication}
    (hget : dictGet d a = some app)
    (hm : app.awaiting_reason = true ∧ app.declined_by = some uid)
    (hothers : ∀ p ∈ d, p.1 ≠ a →
      ¬(p.2.awaiting_reason = true ∧ p.2.declined_by = some uid)) :
    findAwaiting d uid = some app := by
  induction d with
  | nil => simp [dictGet] at hget
  | cons p rest ih =>
    obtain ⟨k, app'⟩ := p
    by_cases hk : k = a
    · subst hk
      simp only [dictGet, if_pos rfl] at hget
      cases hget
      simp [findAwaiting, hm]
    · have hh := hothers (k, app') (List.mem_cons_self _ _) hk
      simp only [findAwaiting, if_neg hh]
      simp only [dictGet, if_neg hk] at hget
      exact ih hget fun q hq hqa => hothers q (List.mem_cons_of_mem _ hq) hqa

/-! ## Characterizations of the individual action branches -/

theorem userAcceptAction_success (cfg : Config) (a : Nat) (un : String) (r : Option Nat)
    (s : BotState) (st : UserState)
    (hg : dictGet s.user_states a = some st) (hsub : st.submitted = false) :
    userAcceptAction cfg a a un r s =
      ({ user_states := dictInsert s.user_states a
           ({ st with submitted := true, awaiting_user_confirmation := false }),
         pending_apps := dictInsert s.pending_apps a
           ({ user_id := a, username := un, answers := st.answers,
              moderator_message_id := r, awaiting_reason := false, declined_by := none }) },
       editList a st.summary_message_id ++
         [Output.sendMsg cfg.modChatId (applicationPostText un a st.answers)
            (some (modMarkup a)),
          Output.sendMsg a submittedText none]) := by
  unfold userAcceptAction
  rw [if_neg (fun h => h rfl), hg]
  dsimp only
  rw [if_neg (by simp [hsub])]

theorem userAcceptAction_submitted (cfg : Config) (a u : Nat) (un : String) (r : Option Nat)
    (s : BotState) (st : UserState)
    (hg : dictGet s.user_states a = some st) (hsub : st.submitted = true) :
    userAcceptAction cfg a u un r s = (s, []) := by
  unfold userAcceptAction
  by_cases hu : u ≠ a
  · rw [if_pos hu]
  · rw [if_neg hu, hg]
    dsimp only
    rw [if_pos hsub]

theorem userDeclineAction_success (a : Nat) (s : BotState) (st : UserState)
    (hg : dictGet s.user_states a = some st) (hsub : st.submitted = false) :
    userDeclineAction a a s =
      ({ s with user_states := dictInsert s.user_states a freshUserState },
       editList a st.summary_message_id ++
         [Output.sendMsg a cancelledText none]) := by
  unfold userDeclineAction
  rw [if_neg (fun h => h rfl), hg]
  dsimp only
  rw [if_neg (by simp [hsub])]

theorem modAcceptAction_found (cfg : Config) (a : Nat) (s : BotState)
    (app : PendingApplication) (hg : dictGet s.pending_apps a = some app) :
    modAcceptAction cfg a s =
      ({ s with pending_apps := dictPop s.pending_apps a },
       editList cfg.modChatId app.moderator_message_id ++
         [Output.sendMsg a (acceptanceText cfg) none,
          Output.sendMsg cfg.modChatId (acceptedNotice a app) none]) := by
  unfold modAcceptAction
  rw [hg]

theorem modAcceptAction_missing (cfg : Config) (a : Nat) (s : BotState)
    (hg : dictGet s.pending_apps a = none) :
    modAcceptAction cfg a s = (s, []) := by
  unfold modAcceptAction
  rw [hg]

theorem modDeclineAction_found (cfg : Config) (a u : Nat) (s : BotState)
    (app : PendingApplication) (hg : dictGet s.pending_apps a = some app) :
    modDeclineAction cfg a u s =
      ({ user_states := s.user_states,
         pending_apps := dictInsert s.pending_apps a
           ({ app with awaiting_reason := true, declined_by := some u }) },
       [Output.sendMsg cfg.modChatId reasonPrompt none]) := by
  unfold modDeclineAction
  rw [hg]

theorem modDeclineAction_missing (cfg : Config) (a u : Nat) (s : BotState)
    (hg : dictGet s.pending_apps a = none) :
    modDeclineAction cfg a u s = (s, []) := by
  unfold modDeclineAction
  rw [hg]

theorem moderatorReasonAction_found (cfg : Config) (u : Nat) (t : String) (s : BotState)
    (app : PendingApplication) (hf : findAwaiting s.pending_apps u = some app) :
    moderatorReasonAction cfg u t s =
      ({ s with pending_apps := dictPop s.pending_apps app.user_id },
       Output.sendMsg app.user_id (rejectionText (if t ≠ "" then t else defaultReason)) none ::
         (editList cfg.modChatId app.moderator_message_id ++
          [Output.sendMsg cfg.modChatId (declinedNotice app) none])) := by
  unfold moderatorReasonAction
  rw [hf]

theorem moderatorReasonAction_inert (cfg : Config) (u : Nat) (t : String) (s : BotState)
    (hf : findAwaiting s.pending_apps u = none) :
    moderatorReasonAction cfg u t s = (s, []) := by
  unfold moderatorReasonAction
  rw [hf]

theorem hum_moderator (cfg : Config) (u : Nat) (raw : String) (r : Option Nat) (s : BotState) :
    handle_user_message cfg cfg.modChatId u raw r s =
      moderatorReasonAction cfg u (pyStrip raw) s := by
  simp only [handle_user_message, if_true]

/-! ## Witness fixtures -/

/-- A concrete configuration for witnesses. -/
def cfgW : Config := { modChatId := 1000, inviteLink := "https://invite.example" }

/-- A concrete reviewing-stage user state for witnesses. -/
def stW : UserState :=
  { step := 5, answers := ["22", "no", "yes", "forum.example"], submitted := false,
    awaiting_user_confirmation := false, summary_message_id := none }

/-- A concrete store holding one applicant state for witnesses. -/
def sW : BotState := { user_states := [(7, stW)], pending_apps := [] }

/-- A concrete store holding one fresh applicant state for witnesses. -/
def sFreshW : BotState := { user_states := [(7, freshUserState)], pending_apps := [] }

/-! ## Claim C7 -/

/-- C7: `present_summary` sets `awaiting_user_confirmation := true` and
stores the summary message reference exactly when the transport send
succeeds (`some mid`); on a failed send (`none`) the entire `BotState` is
left unchanged. -/
theorem claim_present_summary_transactional (uid : Nat) (s : BotState) (st : UserState)
    (mid : Nat) (hg : dictGet s.user_states uid = some st) :
    (present_summary uid (some mid) s).1.user_states =
      dictInsert s.user_states uid
        ({ st with awaiting_user_confirmation := true, summary_message_id := some mid }) ∧
    (present_summary uid (some mid) s).1.pending_apps = s.pending_apps ∧
    (present_summary uid none s).1 = s := by
  unfold present_summary
  rw [hg]
  exact ⟨rfl, rfl, rfl⟩

/-- Witness for C7 at a concrete state. -/
theorem claim_present_summary_transactional_witness :
    dictGet sW.user_states 7 = some stW ∧
    ((present_summary 7 (some 3) sW).1.user_states =
      dictInsert sW.user_states 7
        ({ stW with awaiting_user_confirmation := true, summary_message_id := some 3 }) ∧
     (present_summary 7 (some 3) sW).1.pending_apps = sW.pending_apps ∧
     (present_summary 7 none sW).1 = sW) :=
  ⟨by decide, claim_present_summary_transactional 7 sW stW 3 (by decide)⟩

/-! ## Claim C6 -/

/-- C6: an applicant-confirm or applicant-cancel callback whose presser
differs from the applicant encoded in the payload is silently ignored:
the state is returned unchanged and the only output is the callback
acknowledgement (no message is sent, nothing is read-modified). -/
theorem claim_identity_guard (cfg : Config) (q a p : Nat) (un : String) (r : Option Nat)
    (s : BotState) (hp : p ≠ a) :
    handle_callback_query cfg q ("user_accept:" ++ natToStr a) p un r s =
      (s, [Output.ansCallback q]) ∧
    handle_callback_query cfg q ("user_decline:" ++ natToStr a) p un r s =
      (s, [Output.ansCallback q]) := by
  constructor
  · rw [hcq_user_accept]
    unfold userAcceptAction
    rw [if_pos hp]
  · rw [hcq_user_decline]
    unfold userDeclineAction
    rw [if_pos hp]

/-- Witness for C6 at a concrete state. -/
theorem claim_identity_guard_witness :
    (8 : Nat) ≠ 7 ∧
    (handle_callback_query cfgW 1 ("user_accept:" ++ natToStr 7) 8 "mallory" none sW =
      (sW, [Output.ansCallback 1]) ∧
     handle_callback_query cfgW 1 ("user_decline:" ++ natToStr 7) 8 "mallory" none sW =
      (sW, [Output.ansCallback 1])) :=
  ⟨by decide, claim_identity_guard cfgW 1 7 8 "mallory" none sW (by decide)⟩

/-! ## Claim C5 -/

/-- C5: a confirm press by the owner on an unsubmitted state flips
`submitted` to true; a second confirm press on the resulting state is a
no-op: the state is unchanged and the only output is the callback
acknowledgement (in particular no second moderator post). -/
theorem claim_confirm_exactly_once (cfg : Config) (q1 q2 a : Nat) (un1 un2 : String)
    (r1 r2 : Option Nat) (s : BotState) (st : UserState)
    (hg : dictGet s.user_states a = some st) (hsub : st.submitted = false) :
    dictGet (handle_callback_query cfg q1 ("user_accept:" ++ natToStr a) a un1 r1 s).1.user_states a
      = some ({ st with submitted := true, awaiting_user_confirmation := false }) ∧
    handle_callback_query cfg q2 ("user_accept:" ++ natToStr a) a un2 r2
        (handle_callback_query cfg q1 ("user_accept:" ++ natToStr a) a un1 r1 s).1 =
      ((handle_callback_query cfg q1 ("user_accept:" ++ natToStr a) a un1 r1 s).1,
       [Output.ansCallback q2]) := by
  have hfirst : dictGet
      (handle_callback_query cfg q1 ("user_accept:" ++ natToStr a) a un1 r1 s).1.user_states a
      = some ({ st with submitted := true, awaiting_user_confirmation := false }) := by
    rw [hcq_user_accept, userAcceptAction_success cfg a un1 r1 s st hg hsub]
    dsimp only
    rw [dictGet_insert, if_pos rfl]
  refine ⟨hfirst, ?_⟩
  generalize hgen :
    (handle_callback_query cfg q1 ("user_accept:" ++ natToStr a) a un1 r1 s).1 = s2
  rw [hgen] at hfirst
  rw [hcq_user_accept, userAcceptAction_submitted cfg a a un2 r2 s2 _ hfirst rfl]

/-- Witness for C5 at a concrete state. -/
theorem claim_confirm_exactly_once_witness :
    dictGet sW.user_states 7 = some stW ∧ stW.submitted = false ∧
    (dictGet (handle_callback_query cfgW 1 ("user_accept:" ++ natToStr 7) 7 "alice" (some 9) sW).1.user_states 7
      = some ({ stW with submitted := true, awaiting_user_confirmation := false }) ∧
     handle_callback_query cfgW 2 ("user_accept:" ++ natToStr 7) 7 "alice" (some 8)
        (handle_callback_query cfgW 1 ("user_accept:" ++ natToStr 7) 7 "alice" (some 9) sW).1 =
      ((handle_callback_query cfgW 1 ("user_accept:" ++ natToStr 7) 7 "alice" (some 9) sW).1,
       [Output.ansCallback 2])) :=
  ⟨by decide, rfl,
    claim_confirm_exactly_once cfgW 1 2 7 "alice" "alice" (some 9) (some 8) sW stW
      (by decide) rfl⟩

/-! ## Claim C10 -/

/-- C10: the confirm branch is guarded only by state existence and
`submitted = false`: whatever the step or confirmation flag, the press
submits, builds the pending application from the currently collected
answers, and posts it; an empty answer list renders as the explicit
empty marker. -/
theorem claim_confirm_guard_minimal (cfg : Config) (q a : Nat) (un : String) (r : Option Nat)
    (s : BotState) (st : UserState)
    (hg : dictGet s.user_states a = some st) (hsub : st.submitted = false) :
    handle_callback_query cfg q ("user_accept:" ++ natToStr a) a un r s =
      ({ user_states := dictInsert s.user_states a
           ({ st with submitted := true, awaiting_user_confirmation := false }),
         pending_apps := dictInsert s.pending_apps a
           ({ user_id := a, username := un, answers := st.answers,
              moderator_message_id := r, awaiting_reason := false, declined_by := none }) },
       Output.ansCallback q ::
         (editList a st.summary_message_id ++
          [Output.sendMsg cfg.modChatId (applicationPostText un a st.answers)
             (some (modMarkup a)),
           Output.sendMsg a submittedText none])) ∧
    renderAnswers [] = "(пусто)" := by
  constructor
  · rw [hcq_user_accept, userAcceptAction_success cfg a un r s st hg hsub]
  · rfl

/-- Witness for C10 at a concrete state whose questionnaire has not even
started (step 0, no answers). -/
theorem claim_confirm_guard_minimal_witness :
    dictGet sFreshW.user_states 7 = some freshUserState ∧
    freshUserState.submitted = false ∧
    (handle_callback_query cfgW 4 ("user_accept:" ++ natToStr 7) 7 "bob" (some 5) sFreshW =
      ({ user_states := dictInsert sFreshW.user_states 7
           ({ freshUserState with submitted := true, awaiting_user_confirmation := false }),
         pending_apps := dictInsert sFreshW.pending_apps 7
           ({ user_id := 7, username := "bob", answers := freshUserState.answers,
              moderator_message_id := some 5, awaiting_reason := false, declined_by := none }) },
       Output.ansCallback 4 ::
         (editList 7 freshUserState.summary_message_id ++
          [Output.sendMsg cfgW.modChatId (applicationPostText "bob" 7 freshUserState.answers)
             (some (modMarkup 7)),
           Output.sendMsg 7 submittedText none])) ∧
     renderAnswers [] = "(пусто)") :=
  ⟨by decide, rfl,
    claim_confirm_guard_minimal cfgW 4 7 "bob" (some 5) sFreshW freshUserState
      (by decide) rfl⟩

/-! ## Claim C2 -/

/-- The length/step relation of the spec, with natural-number subtraction
so that the claimed fresh state (step 0, no answers) satisfies it. -/
def AnswersLenOk (st : UserState) : Prop :=
  st.step ≤ 4 → st.answers.length = st.step - 1

/-- An empty store, used by invariant witnesses. -/
def sEmptyW : BotState := { user_states := [], pending_apps := [] }

/-- C2: every stored `UserState` satisfies `answers.length = step - 1`
whenever `step ≤ 4`, and this is preserved by processing any update; a
freshly created `UserState()` has step 0, no answers and both booleans
false. -/
theorem claim_answers_length_invariant (cfg : Config) (u : Update) (r : Option Nat)
    (s : BotState) (h : StatesSat AnswersLenOk s) :
    StatesSat AnswersLenOk (processUpdate cfg u r s).1 ∧
    freshUserState.step = 0 ∧ freshUserState.answers = [] ∧
    freshUserState.submitted = false ∧
    freshUserState.awaiting_user_confirmation = false := by
  refine ⟨?_, rfl, rfl, rfl, rfl⟩
  refine processUpdate_statesSat cfg u r s h ?_ ?_ ?_ ?_ ?_
  · intro _
    rfl
  · intro _
    rfl
  · intro st hst
    exact hst
  · intro st t hst h1 h4 hle
    have hlen : st.answers.length = st.step - 1 := hst h4
    show (st.answers ++ [t]).length = st.step + 1 - 1
    rw [List.length_append, hlen]
    simp
    omega
  · intro st mid hst hsub
    exact hst

/-- Witness for C2 starting from the empty store. -/
theorem claim_answers_length_invariant_witness :
    StatesSat AnswersLenOk sEmptyW ∧
    (StatesSat AnswersLenOk (processUpdate cfgW (Update.msg 7 7 "/start") none sEmptyW).1 ∧
     freshUserState.step = 0 ∧ freshUserState.answers = [] ∧
     freshUserState.submitted = false ∧
     freshUserState.awaiting_user_confirmation = false) :=
  have h0 : StatesSat AnswersLenOk sEmptyW := fun _ _ hg =>
    absurd hg (by simp [sEmptyW, dictGet])
  ⟨h0, claim_answers_length_invariant cfgW (Update.msg 7 7 "/start") none sEmptyW h0⟩

/-! ## Claim C3 -/

/-- The spec's flag exclusion: `awaiting_user_confirmation` and
`submitted` are never both true. -/
def FlagsOk (st : UserState) : Prop :=
  ¬(st.awaiting_user_confirmation = true ∧ st.submitted = true)

/-- C3: no stored `UserState` ever has both `awaiting_user_confirmation`
and `submitted` true, and processing any update preserves this. -/
theorem claim_flags_mutually_exclusive (cfg : Config) (u : Update) (r : Option Nat)
    (s : BotState) (h : StatesSat FlagsOk s) :
    StatesSat FlagsOk (processUpdate cfg u r s).1 := by
  refine processUpdate_statesSat cfg u r s h ?_ ?_ ?_ ?_ ?_
  · intro hx
    exact absurd hx.1 (by decide)
  · intro hx
    exact absurd hx.1 (by decide)
  · intro st hst hx
    exact absurd hx.1 Bool.false_ne_true
  · intro st t hst h1 h4 hx
    exact hst hx
  · intro st mid hst hsub hx
    exact absurd hx.2 (by simp [hsub])

/-- Witness for C3 starting from the empty store. -/
theorem claim_flags_mutually_exclusive_witness :
    StatesSat FlagsOk sEmptyW ∧
    StatesSat FlagsOk (processUpdate cfgW
      (Update.callback 1 ("user_accept:" ++ natToStr 7) 7 "alice") (some 9)
      sEmptyW).1 :=
  have h0 : StatesSat FlagsOk sEmptyW := fun _ _ hg =>
    absurd hg (by simp [sEmptyW, dictGet])
  ⟨h0, claim_flags_mutually_exclusive cfgW
    (Update.callback 1 ("user_accept:" ++ natToStr 7) 7 "alice") (some 9) sEmptyW h0⟩

/-! ## Claim C4 -/

theorem mem_editList {c : Nat} {mi : Option Nat} {o : Output} (h : o ∈ editList c mi) :
    ∃ m', o = Output.editMarkup c m' emptyMarkup := by
  cases mi with
  | none => simp [editList] at h
  | some m' =>
    simp [editList] at h
    exact ⟨m', h⟩

/-- C4: with a pending application for `a` awaiting a reason bound to
moderator `m`, a moderator-chat text from any sender `u ≠ m` does not
finalize that application (it stays in the store and nothing at all is
sent to the applicant's chat), while a text from `m` finalizes it: the
application is removed and the applicant receives the rejection, with an
empty or whitespace-only text replaced by the fixed default phrase. -/
theorem claim_reason_sender_binding (cfg : Config) (s : BotState) (a m u : Nat)
    (app : PendingApplication) (raw : String) (r : Option Nat)
    (hnd : (s.pending_apps.map Prod.fst).Nodup)
    (hwf : ∀ p ∈ s.pending_apps, p.2.user_id = p.1)
    (hget : dictGet s.pending_apps a = some app)
    (hawait : app.awaiting_reason = true)
    (hdecl : app.declined_by = some m)
    (huniq : ∀ p ∈ s.pending_apps,
      p.2.awaiting_reason = true ∧ p.2.declined_by = some m → p.1 = a)
    (hchat : a ≠ cfg.modChatId)
    (hu : u ≠ m) :
    (dictGet (processUpdate cfg (Update.msg cfg.modChatId u raw) r s).1.pending_apps a
        = some app ∧
     ∀ o ∈ (processUpdate cfg (Update.msg cfg.modChatId u raw) r s).2,
       ∀ t mk, o ≠ Output.sendMsg a t mk) ∧
    (dictGet (processUpdate cfg (Update.msg cfg.modChatId m raw) r s).1.pending_apps a
        = none ∧
     Output.sendMsg a
         (rejectionText (if pyStrip raw ≠ "" then pyStrip raw else defaultReason)) none
       ∈ (processUpdate cfg (Update.msg cfg.modChatId m raw) r s).2) := by
  have hmem_a : (a, app) ∈ s.pending_apps := dictGet_mem hget
  have huida : app.user_id = a := hwf (a, app) hmem_a
  constructor
  · simp only [processUpdate]
    rw [hum_moderator]
    cases hf : findAwaiting s.pending_apps u with
    | none =>
      rw [moderatorReasonAction_inert cfg u (pyStrip raw) s hf]
      refine ⟨hget, ?_⟩
      intro o ho t mk
      exact absurd ho (List.not_mem_nil o)
    | some app' =>
      rw [moderatorReasonAction_found cfg u (pyStrip raw) s app' hf]
      have hmm := findAwaiting_matches hf
      obtain ⟨k, hk⟩ := findAwaiting_mem hf
      have hka : k ≠ a := by
        intro hkeq
        subst hkeq
        have hg2 : dictGet s.pending_apps k = some app' := dictGet_of_mem_nodup hnd hk
        rw [hget] at hg2
        injection hg2 with heq
        subst heq
        rw [hdecl] at hmm
        exact hu (Option.some.inj hmm.2).symm
      have hua : app'.user_id = k := hwf (k, app') hk
      have huna : app'.user_id ≠ a := by
        rw [hua]
        exact hka
      constructor
      · dsimp only
        rw [dictGet_pop, if_neg huna]
        exact hget
      · intro o ho t mk
        dsimp only at ho
        rcases List.mem_cons.mp ho with h1 | h2
        · subst h1
          intro heq
          injection heq with hc _ _
          exact huna hc
        · rcases List.mem_append.mp h2 with h3 | h4
          · obtain ⟨mm, rfl⟩ := mem_editList h3
            intro heq
            exact Output.noConfusion heq
          · rw [List.mem_singleton] at h4
            subst h4
            intro heq
            injection heq with hc _ _
            exact hchat hc.symm
  · simp only [processUpdate]
    rw [hum_moderator]
    have hothers : ∀ p ∈ s.pending_apps, p.1 ≠ a →
        ¬(p.2.awaiting_reason = true ∧ p.2.declined_by = some m) :=
      fun p hp hpa hmatch => hpa (huniq p hp hmatch)
    have hf2 : findAwaiting s.pending_apps m = some app :=
      findAwaiting_first hget ⟨hawait, hdecl⟩ hothers
    rw [moderatorReasonAction_found cfg m (pyStrip raw) s app hf2]
    constructor
    · dsimp only
      rw [huida, dictGet_pop, if_pos rfl]
    · dsimp only
      rw [huida]
      exact List.mem_cons_self _ _

/-- A concrete pending application awaiting moderator 55's reason. -/
def appW : PendingApplication :=
  { user_id := 7, username := "alice", answers := ["22"],
    moderator_message_id := some 9, awaiting_reason := true, declined_by := some 55 }

/-- A concrete store with one pending application, for witnesses. -/
def sPendW : BotState := { user_states := [], pending_apps := [(7, appW)] }

/-- Witness for C4 at a concrete state. -/
theorem claim_reason_sender_binding_witness :
    (sPendW.pending_apps.map Prod.fst).Nodup ∧
    (∀ p ∈ sPendW.pending_apps, p.2.user_id = p.1) ∧
    dictGet sPendW.pending_apps 7 = some appW ∧
    appW.awaiting_reason = true ∧
    appW.declined_by = some 55 ∧
    (∀ p ∈ sPendW.pending_apps,
      p.2.awaiting_reason = true ∧ p.2.declined_by = some 55 → p.1 = 7) ∧
    (7 : Nat) ≠ cfgW.modChatId ∧
    (56 : Nat) ≠ 55 ∧
    ((dictGet (processUpdate cfgW (Update.msg cfgW.modChatId 56 "spam") none sPendW).1.pending_apps 7
        = some appW ∧
      ∀ o ∈ (processUpdate cfgW (Update.msg cfgW.modChatId 56 "spam") none sPendW).2,
        ∀ t mk, o ≠ Output.sendMsg 7 t mk) ∧
     (dictGet (processUpdate cfgW (Update.msg cfgW.modChatId 55 "spam") none sPendW).1.pending_apps 7
        = none ∧
      Output.sendMsg 7
          (rejectionText (if pyStrip "spam" ≠ "" then pyStrip "spam" else defaultReason)) none
        ∈ (processUpdate cfgW (Update.msg cfgW.modChatId 55 "spam") none sPendW).2)) :=
  ⟨by decide, by decide, by decide, rfl, rfl, by decide, by decide, by decide,
    claim_reason_sender_binding cfgW sPendW 7 55 56 appW "spam" none (by decide) (by decide)
      (by decide) rfl rfl (by decide) (by decide) (by decide)⟩

/-! ## Claim C1 -/

/-- A terminal notification to applicant `a`: the acceptance message or a
rejection message (recognized by its fixed first line) sent to `a`'s chat. -/
def isTerminalTo (cfg : Config) (a : Nat) (o : Output) : Bool :=
  decide (o = Output.sendMsg a (acceptanceText cfg) none) ||
  (match o with
   | Output.sendMsg c t _ => decide (c = a) && (stripTag rejectionHeader t).isSome
   | _ => false)

/-- Number of terminal notifications to `a` among the outputs. -/
def terminalCount (cfg : Config) (a : Nat) (outs : List Output) : Nat :=
  (outs.filter (isTerminalTo cfg a)).length

theorem isTerminalTo_ack (cfg : Config) (a q : Nat) :
    isTerminalTo cfg a (Output.ansCallback q) = false := by
  simp [isTerminalTo]

theorem isTerminalTo_chat_ne (cfg : Config) (a c : Nat) (hc : c ≠ a) (t : String)
    (mk : Option Markup) :
    isTerminalTo cfg a (Output.sendMsg c t mk) = false := by
  simp [isTerminalTo, Output.sendMsg.injEq, hc]

theorem isTerminalTo_accept (cfg : Config) (a : Nat) :
    isTerminalTo cfg a (Output.sendMsg a (acceptanceText cfg) none) = true := by
  simp [isTerminalTo]

theorem isTerminalTo_reject (cfg : Config) (a : Nat) (reason : String) :
    isTerminalTo cfg a (Output.sendMsg a (rejectionText reason) none) = true := by
  simp [isTerminalTo, rejectionText, stripTag_self]

theorem filter_editList (cfg : Config) (a c : Nat) (mi : Option Nat) :
    (editList c mi).filter (isTerminalTo cfg a) = [] := by
  cases mi <;> simp [editList, isTerminalTo]

/-- C1: with a pending application for `a` and no application bound to a
reason from moderator `m`, issuing moderator-accept and moderator-reject
(the latter followed by m's reason text) in either order yields exactly
one terminal notification to the applicant, and the second action is a
no-op on the pending-applications store (order A: accept wins, the later
reject press and reason text change nothing; order B: the finalized
rejection wins, the later accept press changes nothing). -/
theorem claim_accept_reject_exclusive (cfg : Config) (s : BotState) (a m acc : Nat)
    (app : PendingApplication) (q1 q2 : Nat) (un1 un2 raw : String) (r1 r2 r3 : Option Nat)
    (hget : dictGet s.pending_apps a = some app)
    (huid : app.user_id = a)
    (hchat : a ≠ cfg.modChatId)
    (hnone : ∀ p ∈ s.pending_apps,
      ¬(p.2.awaiting_reason = true ∧ p.2.declined_by = some m)) :
    (∀ s1 o1 s2 o2 s3 o3,
      processUpdate cfg (Update.callback q1 ("mod_accept:" ++ natToStr a) acc un1) r1 s
        = (s1, o1) →
      processUpdate cfg (Update.callback q2 ("mod_decline:" ++ natToStr a) m un2) r2 s1
        = (s2, o2) →
      processUpdate cfg (Update.msg cfg.modChatId m raw) r3 s2 = (s3, o3) →
      terminalCount cfg a (o1 ++ o2 ++ o3) = 1 ∧ s2 = s1 ∧ s3 = s2) ∧
    (∀ s1 o1 s2 o2 s3 o3,
      processUpdate cfg (Update.callback q2 ("mod_decline:" ++ natToStr a) m un2) r2 s
        = (s1, o1) →
      processUpdate cfg (Update.msg cfg.modChatId m raw) r3 s1 = (s2, o2) →
      processUpdate cfg (Update.callback q1 ("mod_accept:" ++ natToStr a) acc un1) r1 s2
        = (s3, o3) →
      terminalCount cfg a (o1 ++ o2 ++ o3) = 1 ∧ s3 = s2) := by
  have hmc : cfg.modChatId ≠ a := Ne.symm hchat
  constructor
  · intro s1 o1 s2 o2 s3 o3 he1 he2 he3
    simp only [processUpdate] at he1 he2 he3
    rw [hcq_mod_accept, modAcceptAction_found cfg a s app hget] at he1
    dsimp only at he1
    injection he1 with hs1 ho1
    subst hs1
    subst ho1
    have hg1 : dictGet
        ({ s with pending_apps := dictPop s.pending_apps a } : BotState).pending_apps a
        = none := by
      dsimp only
      rw [dictGet_pop, if_pos rfl]
    rw [hcq_mod_decline, modDeclineAction_missing cfg a m _ hg1] at he2
    dsimp only at he2
    injection he2 with hs2 ho2
    subst hs2
    subst ho2
    have hfa : findAwaiting
        ({ s with pending_apps := dictPop s.pending_apps a } : BotState).pending_apps m
        = none :=
      findAwaiting_eq_none fun p hp => hnone p (mem_of_mem_dictPop hp)
    rw [hum_moderator, moderatorReasonAction_inert cfg m (pyStrip raw) _ hfa] at he3
    injection he3 with hs3 ho3
    subst hs3
    subst ho3
    refine ⟨?_, rfl, rfl⟩
    simp [terminalCount, List.filter_cons, List.filter_append, filter_editList,
      isTerminalTo_ack, isTerminalTo_accept, isTerminalTo_chat_ne cfg a cfg.modChatId hmc]
  · intro s1 o1 s2 o2 s3 o3 he1 he2 he3
    simp only [processUpdate] at he1 he2 he3
    rw [hcq_mod_decline, modDeclineAction_found cfg a m s app hget] at he1
    dsimp only at he1
    injection he1 with hs1 ho1
    subst hs1
    subst ho1
    have hf1 : findAwaiting
        (dictInsert s.pending_apps a
          ({ app with awaiting_reason := true, declined_by := some m })) m
        = some ({ app with awaiting_reason := true, declined_by := some m }) :=
      findAwaiting_insert hnone ⟨rfl, rfl⟩
    rw [hum_moderator, moderatorReasonAction_found cfg m (pyStrip raw) _ _ hf1] at he2
    dsimp only at he2
    injection he2 with hs2 ho2
    subst hs2
    subst ho2
    have hg2 : dictGet (dictPop
        (dictInsert s.pending_apps a
          ({ app with awaiting_reason := true, declined_by := some m })) app.user_id) a
        = none := by
      rw [dictGet_pop, huid, if_pos rfl]
    rw [hcq_mod_accept, modAcceptAction_missing cfg a _ hg2] at he3
    dsimp only at he3
    injection he3 with hs3 ho3
    subst hs3
    subst ho3
    refine ⟨?_, rfl⟩
    rw [show ({ app with awaiting_reason := true, declined_by := some m }
      : PendingApplication).user_id = a from huid]
    simp [terminalCount, List.filter_cons, List.filter_append, filter_editList,
      isTerminalTo_ack, isTerminalTo_reject,
      isTerminalTo_chat_ne cfg a cfg.modChatId hmc]

/-- A concrete pending application not yet in a reject-reason flow. -/
def app2W : PendingApplication :=
  { user_id := 7, username := "carol", answers := ["22", "no"],
    moderator_message_id := some 9, awaiting_reason := false, declined_by := none }

/-- A concrete store with one undecided pending application. -/
def sPend2W : BotState := { user_states := [], pending_apps := [(7, app2W)] }

/-- Order A of the C1 witness run: moderator-accept first. -/
def c1AW : BotState × List Output :=
  processUpdate cfgW (Update.callback 1 ("mod_accept:" ++ natToStr 7) 56 "modA") none sPend2W

/-- Order A, second event: the late moderator-reject press. -/
def c1A2W : BotState × List Output :=
  processUpdate cfgW (Update.callback 2 ("mod_decline:" ++ natToStr 7) 55 "modB") none c1AW.1

/-- Order A, third event: the late reason text. -/
def c1A3W : BotState × List Output :=
  processUpdate cfgW (Update.msg cfgW.modChatId 55 "spam") none c1A2W.1

/-- Order B of the C1 witness run: moderator-reject press first. -/
def c1BW : BotState × List Output :=
  processUpdate cfgW (Update.callback 2 ("mod_decline:" ++ natToStr 7) 55 "modB") none sPend2W

/-- Order B, second event: the reason text finalizing the rejection. -/
def c1B2W : BotState × List Output :=
  processUpdate cfgW (Update.msg cfgW.modChatId 55 "spam") none c1BW.1

/-- Order B, third event: the late moderator-accept press. -/
def c1B3W : BotState × List Output :=
  processUpdate cfgW (Update.callback 1 ("mod_accept:" ++ natToStr 7) 56 "modA") none c1B2W.1

/-- Witness for C1 at a concrete state, in both orders. -/
theorem claim_accept_reject_exclusive_witness :
    dictGet sPend2W.pending_apps 7 = some app2W ∧
    app2W.user_id = 7 ∧
    (7 : Nat) ≠ cfgW.modChatId ∧
    (∀ p ∈ sPend2W.pending_apps,
      ¬(p.2.awaiting_reason = true ∧ p.2.declined_by = some 55)) ∧
    (terminalCount cfgW 7 (c1AW.2 ++ c1A2W.2 ++ c1A3W.2) = 1 ∧
     c1A2W.1 = c1AW.1 ∧ c1A3W.1 = c1A2W.1) ∧
    (terminalCount cfgW 7 (c1BW.2 ++ c1B2W.2 ++ c1B3W.2) = 1 ∧
     c1B3W.1 = c1B2W.1) :=
  have hthm := claim_accept_reject_exclusive cfgW sPend2W 7 55 56 app2W 1 2 "modA" "modB"
    "spam" none none none (by decide) rfl (by decide) (by decide)
  ⟨by decide, rfl, by decide, by decide,
    hthm.1 c1AW.1 c1AW.2 c1A2W.1 c1A2W.2 c1A3W.1 c1A3W.2 rfl rfl rfl,
    hthm.2 c1BW.1 c1BW.2 c1B2W.1 c1B2W.2 c1B3W.1 c1B3W.2 rfl rfl rfl⟩

/-! ## Claim C8 (code bug) -/

/-- C8, evaluated at the failing input: the cancel press does replace the
state with the fresh zero state (answers discarded), but the subsequent
`/start` does not restart the questionnaire — because a state exists, the
dispatcher falls through to the restart prompt and leaves step at 0,
contradicting the claimed restart (and the bot's own cancellation message,
which instructs the user to send /start to reapply). -/
theorem claim_cancel_then_start_code_bug :
    dictGet (processUpdate cfgW
      (Update.callback 5 ("user_decline:" ++ natToStr 7) 7 "alice") none sW).1.user_states 7
      = some freshUserState ∧
    processUpdate cfgW (Update.msg 7 7 "/start") none
      (processUpdate cfgW
        (Update.callback 5 ("user_decline:" ++ natToStr 7) 7 "alice") none sW).1 =
      ((processUpdate cfgW
        (Update.callback 5 ("user_decline:" ++ natToStr 7) 7 "alice") none sW).1,
       [Output.sendMsg 7 restartPromptText none]) := by
  decide

/-! ## Claim C9 -/

/-- Recognizer for a summary render to `a`: a send to `a`'s chat carrying
the confirm/cancel keyboard. -/
def isSummaryRender (a : Nat) (o : Output) : Bool :=
  match o with
  | Output.sendMsg c _ mk => decide (c = a) && decide (mk = some (summaryMarkup a))
  | _ => false

/-- C9: starting fresh, `/start` followed by the answers 22 / no / yes /
forum.example produces exactly one summary render, and its text is the
four numbered lines (answers verbatim, HTML-escaped) above the
confirmation suffix, with the confirm/cancel keyboard attached; an empty
answer list renders as the explicit empty marker. -/
theorem claim_summary_scenario (cfg : Config) (a mid : Nat) (r1 r2 r3 r4 : Option Nat)
    (s : BotState) (hchat : a ≠ cfg.modChatId) (hg : dictGet s.user_states a = none) :
    (processUpdates cfg s
        [(Update.msg a a "/start", r1), (Update.msg a a "22", r2),
         (Update.msg a a "no", r3), (Update.msg a a "yes", r4),
         (Update.msg a a "forum.example", some mid)]).2.filter (isSummaryRender a) =
      [Output.sendMsg a ("1. 22\n2. no\n3. yes\n4. forum.example" ++ summarySuffix)
        (some (summaryMarkup a))] ∧
    renderAnswers [] = "(пусто)" := by
  have hstart : pyLower (pyStrip "/start") = "/start" := by decide
  have h22 : pyStrip "22" = "22" := by decide
  have hno : pyStrip "no" = "no" := by decide
  have hyes : pyStrip "yes" = "yes" := by decide
  have hforum : pyStrip "forum.example" = "forum.example" := by decide
  have hrend : renderAnswers ["22", "no", "yes", "forum.example"] =
      "1. 22\n2. no\n3. yes\n4. forum.example" := by decide
  refine ⟨?_, by decide⟩
  simp only [processUpdates, processUpdate, handle_user_message, start_questionnaire,
    ask_next_question, present_summary, hchat, hg, hstart, h22, hno, hyes, hforum,
    dictGet_insert, if_neg hchat, if_false, if_true, startedUserState]
  simp [processUpdates, processUpdate, handle_user_message, start_questionnaire,
    ask_next_question, present_summary, hchat, hg, hstart, h22, hno, hyes, hforum,
    dictGet_insert, startedUserState, isSummaryRender, List.filter_append,
    List.filter_cons, hrend, questions, summaryMarkup]

/-- Witness for C9 from the empty store. -/
theorem claim_summary_scenario_witness :
    (7 : Nat) ≠ cfgW.modChatId ∧
    dictGet sEmptyW.user_states 7 = none ∧
    ((processUpdates cfgW sEmptyW
        [(Update.msg 7 7 "/start", none), (Update.msg 7 7 "22", none),
         (Update.msg 7 7 "no", none), (Update.msg 7 7 "yes", none),
         (Update.msg 7 7 "forum.example", some 42)]).2.filter (isSummaryRender 7) =
      [Output.sendMsg 7 ("1. 22\n2. no\n3. yes\n4. forum.example" ++ summarySuffix)
        (some (summaryMarkup 7))] ∧
     renderAnswers [] = "(пусто)") :=
  ⟨by decide, rfl,
    claim_summary_scenario cfgW 7 42 none none none none sEmptyW (by decide) rfl⟩
